import Mathlib

/-!
Shallow embedding of the reservation logic of the hilton-online-service
repository (NestJS + Mongoose), centred on
src/reservations/reservations.service.ts and
src/reservations/entities/reservation.entity.ts.

Modelling conventions:
  - Timestamps and dates are Nat milliseconds on a timezone-free axis
    (the service computes day windows with setHours on one clock, and the
    model keeps a single clock, so local time and UTC coincide).
  - ObjectId values are Nat; a record is looked up by its id field.
  - JavaScript optional / falsy inputs are Option values; the empty string
    is normalised to none where the source tests plain truthiness.
  - Each mutating operation returns the service result together with the
    store after the operation, so that claims about the stored record can
    be stated directly.
  - Math.random() is represented by the list of base-36 fractional digits
    of the drawn double, exactly the digits that Number.toString(36)
    prints after the leading "0." (an empty list encodes a draw of 0).
-/

namespace HiltonOnline

/-- Reservation status enumeration from reservation.entity.ts. -/
inductive ReservationStatus where
  | requested
  | approved
  | cancelled
  | completed
deriving DecidableEq

/-- Arrival time slot enumeration from reservation.entity.ts. -/
inductive ReservationTimeSlot where
  | lunch
  | dinner
deriving DecidableEq

/-- String value of a status as stored in the database documents. -/
def statusString : ReservationStatus → String
  | .requested => "requested"
  | .approved => "approved"
  | .cancelled => "cancelled"
  | .completed => "completed"

/-- Reservation document, after the Mongoose schema in
reservation.entity.ts.  createdAt and updatedAt are optional in the
entity class; cancelledAt and completedAt have no default. -/
structure Reservation where
  id : Nat
  guestName : String
  guestPhone : String
  guestEmail : String := ""
  expectedArrivalDate : Nat
  expectedArrivalTime : ReservationTimeSlot := .dinner
  tableSize : Nat
  specialRequests : String := ""
  status : ReservationStatus := .requested
  reservationCode : String
  remarks : String := ""
  approvedBy : Option Nat := none
  cancelledBy : Option Nat := none
  cancelledAt : Option Nat := none
  completedAt : Option Nat := none
  createdAt : Option Nat := none
  updatedAt : Option Nat := none
deriving DecidableEq

/-- The reservations collection. -/
abbrev Store := List Reservation

/-- Error taxonomy of the service (NestJS exception classes). -/
inductive SvcError where
  | badRequest (msg : String)
  | notFound (msg : String)
  | conflict (msg : String)
  | internal (msg : String)
deriving DecidableEq

/-- findById on the collection. -/
def findById (store : Store) (id : Nat) : Option Reservation :=
  List.find? (fun r => r.id = id) store

/-- findByIdAndUpdate writes the merged document back under the same id. -/
def replaceById (store : Store) (id : Nat) (merged : Reservation) : Store :=
  List.map (fun r => if r.id = id then merged else r) store

/-- Milliseconds per calendar day. -/
def msPerDay : Nat := 86400000

/-- setHours(0,0,0,0): start of the calendar day containing t. -/
def startOfDay (t : Nat) : Nat := t / msPerDay * msPerDay

/-- setHours(23,59,59,999): end of the calendar day containing t. -/
def endOfDay (t : Nat) : Nat := startOfDay t + (msPerDay - 1)

/-- toDateString() equality: both instants fall on the same calendar day. -/
def sameDay (a b : Nat) : Bool := a / msPerDay = b / msPerDay

/-- Status is requested or approved (the $in list of checkConfilct). -/
def isActive (s : ReservationStatus) : Bool :=
  s = .requested || s = .approved

/-- One existing reservation with this phone, an arrival date inside the
day window of t, and status in the active set (service lines 381-385). -/
def conflictExists (store : Store) (phone : String) (t : Nat) : Bool :=
  List.any store fun r =>
    r.guestPhone = phone
      && decide (startOfDay t ≤ r.expectedArrivalDate)
      && decide (r.expectedArrivalDate ≤ endOfDay t)
      && isActive r.status

/-- Message of the ConflictException thrown by checkConfilct. -/
def conflictMsg : String := "You already have an active reservation for this date"

/-- checkConfilct of the service (source spelling kept): signals Conflict
exactly when a matching active same-day reservation exists. -/
def checkConfilct (store : Store) (phone : String) (t : Nat) : Option SvcError :=
  if conflictExists store phone t then some (.conflict conflictMsg) else none

/-- Phone validation of create: the regex caret 1 [3-9] then nine digits. -/
def validPhone (p : String) : Bool :=
  match p.toList with
  | '1' :: c :: rest =>
      decide ('3' ≤ c) && decide (c ≤ '9')
        && decide (rest.length = 9) && List.all rest Char.isDigit
  | _ => false

/-- Base-36 digit character, as printed by Number.toString(36). -/
def base36Char (d : Nat) : Char :=
  if d % 36 < 10 then Char.ofNat (48 + d % 36) else Char.ofNat (97 + (d % 36 - 10))

/-- Math.random().toString(36): the drawn double rendered in base 36;
digits is the (possibly short) list of fractional digits, trailing zeros
already trimmed by the JavaScript printer.  A draw of exactly 0 prints
as just the character 0. -/
def randBase36String (digits : List Nat) : String :=
  match digits with
  | [] => "0"
  | _ => "0." ++ String.mk (List.map base36Char digits)

/-- substring(2, 8).toUpperCase() of the printed random number
(service line 37). -/
def genCode (digits : List Nat) : String :=
  String.mk (List.map Char.toUpper (List.take 6 (List.drop 2 (randBase36String digits).toList)))

/-- Pre-save middleware of ReservationSchema (entity lines 149-166): on a
save where the status path is modified, set the matching timestamp only
when it is not already set.  It runs on Document.save() only, never on
findByIdAndUpdate. -/
def preSaveHook (r : Reservation) (statusModified : Bool) (now : Nat) : Reservation :=
  if statusModified then
    match r.status with
    | .approved => if r.updatedAt = none then { r with updatedAt := some now } else r
    | .cancelled => if r.cancelledAt = none then { r with cancelledAt := some now } else r
    | .completed => if r.completedAt = none then { r with completedAt := some now } else r
    | .requested => r
  else r

/-- Body of POST /reservations after DTO validation. -/
structure CreateDto where
  guestName : String
  guestPhone : String
  guestEmail : String := ""
  expectedArrivalDate : Nat
  expectedArrivalTime : ReservationTimeSlot := .dinner
  tableSize : Nat
  specialRequests : String := ""
deriving DecidableEq

/-- Code generation loop of create (lines 36-45): roll a code from the
next random draw; on a collision with a stored code the service recurses
into create, which re-runs the pure validations with identical outcome,
so the recursion is exactly a retry of the roll.  The draw list is the
sequence of Math.random() outcomes; exhausting it models the unbounded
recursion never returning, as an internal error. -/
def createLoop (store : Store) (now newId : Nat) (dto : CreateDto) :
    List (List Nat) → Except SvcError Reservation × Store
  | [] => (.error (.internal "Failed to create reservation"), store)
  | digits :: rest =>
    let randomCode := genCode digits
    if List.any store (fun r => r.reservationCode = randomCode) then
      createLoop store now newId dto rest
    else
      let newRes : Reservation :=
        { id := newId
          guestName := dto.guestName
          guestPhone := dto.guestPhone
          guestEmail := dto.guestEmail
          expectedArrivalDate := dto.expectedArrivalDate
          expectedArrivalTime := dto.expectedArrivalTime
          tableSize := dto.tableSize
          specialRequests := dto.specialRequests
          status := .requested
          reservationCode := randomCode
          createdAt := some now
          updatedAt := some now }
      let saved := preSaveHook newRes true now
      (.ok saved, store ++ [saved])

/-- Guest create (service lines 18-64): phone format, future arrival
date, conflict check, then the code generation loop and the save. -/
def create (store : Store) (now newId : Nat) (rands : List (List Nat))
    (dto : CreateDto) : Except SvcError Reservation × Store :=
  if validPhone dto.guestPhone = false then
    (.error (.badRequest "Invalid phone number."), store)
  else if dto.expectedArrivalDate ≤ now then
    (.error (.badRequest "Expected arrival time must be in the future"), store)
  else
    match checkConfilct store dto.guestPhone dto.expectedArrivalDate with
    | some e => (.error e, store)
    | none => createLoop store now newId dto rands

/-- Body of PATCH /reservations/guest/:id — PartialType of the create
DTO plus an optional status field (update-reservation.dto.ts). -/
structure UpdateDto where
  guestName : Option String := none
  guestPhone : Option String := none
  guestEmail : Option String := none
  expectedArrivalDate : Option Nat := none
  expectedArrivalTime : Option ReservationTimeSlot := none
  tableSize : Option Nat := none
  specialRequests : Option String := none
  status : Option ReservationStatus := none
deriving DecidableEq

/-- findByIdAndUpdate With the spread update DTO: every field present in
the payload is written verbatim; absent fields keep the stored value.
Mongoose timestamps refresh updatedAt on the write. -/
def applyUpdateDto (r : Reservation) (dto : UpdateDto) (now : Nat) : Reservation :=
  { r with
    guestName := dto.guestName.getD r.guestName
    guestPhone := dto.guestPhone.getD r.guestPhone
    guestEmail := dto.guestEmail.getD r.guestEmail
    expectedArrivalDate := dto.expectedArrivalDate.getD r.expectedArrivalDate
    expectedArrivalTime := dto.expectedArrivalTime.getD r.expectedArrivalTime
    tableSize := dto.tableSize.getD r.tableSize
    specialRequests := dto.specialRequests.getD r.specialRequests
    status := dto.status.getD r.status
    updatedAt := some now }

/-- Guest update (service lines 67-113): lookup, then the only-requested
status gate, then optional arrival date validation with the conflict
check run only when the calendar day changed, then findByIdAndUpdate
with the spread payload. -/
def update (store : Store) (now : Nat) (id : Nat) (dto : UpdateDto) :
    Except SvcError Reservation × Store :=
  match findById store id with
  | none => (.error (.notFound "Reservation not found"), store)
  | some r =>
    if r.status ≠ .requested then
      (.error (.badRequest "Reservation is not in pending status, cannot be updated"), store)
    else
      let merged := applyUpdateDto r dto now
      let write : Except SvcError Reservation × Store :=
        (.ok merged, replaceById store id merged)
      match dto.expectedArrivalDate with
      | some newDate =>
        if newDate ≤ now then
          (.error (.badRequest "Arrival time must be in the future"), store)
        else if sameDay r.expectedArrivalDate newDate = false then
          match checkConfilct store r.guestPhone newDate with
          | some e => (.error e, store)
          | none => write
        else write
      | none => write

/-- Body of the staff status update and the guest cancel. -/
structure StatusDto where
  status : ReservationStatus
  remarks : Option String := none
deriving DecidableEq

/-- The document written by findByIdAndUpdate for a status DTO: only the
status and remarks paths are set.  The pre-save middleware does not run
on findByIdAndUpdate, so cancelledAt and completedAt are untouched. -/
def applyStatusDto (r : Reservation) (dto : StatusDto) (now : Nat) : Reservation :=
  { r with
    status := dto.status
    remarks := dto.remarks.getD r.remarks
    updatedAt := some now }

/-- Guest cancel (service lines 116-152): reject when already cancelled
or completed, force the DTO status to cancelled, findByIdAndUpdate. -/
def cancelByGuest (store : Store) (now : Nat) (id : Nat) (dto : StatusDto)
    (guestId : Nat) : Except SvcError Reservation × Store :=
  match findById store id with
  | none => (.error (.notFound "Reservation not found"), store)
  | some r =>
    if r.status = .cancelled then
      (.error (.badRequest "Reservation is already cancelled"), store)
    else if r.status = .completed then
      (.error (.badRequest "Cannot cancel a completed reservation"), store)
    else
      let merged := applyStatusDto r { dto with status := .cancelled } now
      (.ok merged, replaceById store id merged)

/-- Staff status update (service lines 211-257): lookup, reject an
unchanged status, reject terminal current statuses, findByIdAndUpdate
with the spread status DTO.  The target status is enum-checked at line
224; statuses are typed in the model so that branch never fires. -/
def updateStatus (store : Store) (now : Nat) (id : Nat) (dto : StatusDto)
    (employeeId : Nat) : Except SvcError Reservation × Store :=
  match findById store id with
  | none => (.error (.notFound "Reservation not found"), store)
  | some r =>
    if r.status = dto.status then
      (.error (.badRequest "Status not changed"), store)
    else if r.status = .cancelled then
      (.error (.badRequest "Cannot update cancelled reservation"), store)
    else if r.status = .completed then
      (.error (.badRequest "Cannot update completed reservation"), store)
    else
      let merged := applyStatusDto r dto now
      (.ok merged, replaceById store id merged)

/-- JavaScript string truthiness: the empty string counts as absent. -/
def strVal : Option String → Option String
  | some s => if s = "" then none else some s
  | none => none

/-- JavaScript number truthiness under the or-default idiom: 0 counts as
absent. -/
def natVal : Option Nat → Option Nat
  | some 0 => none
  | some n => some n
  | none => none

/-- Sort key for an optional createdAt: a missing value sorts below
every set value, like a BSON null. -/
def coKey : Option Nat → Nat
  | none => 0
  | some n => n + 1

/-- Sort position used by findOne in findActiveReservationByGuest:
a strictly precedes b under arrival date ascending then createdAt
descending. -/
def resBefore (a b : Reservation) : Bool :=
  decide (a.expectedArrivalDate < b.expectedArrivalDate)
    || (decide (a.expectedArrivalDate = b.expectedArrivalDate)
        && decide (coKey b.createdAt < coKey a.createdAt))

/-- Running best of the findOne sort: keep the candidate that strictly
precedes the current best; ties keep the earlier stored document. -/
def selectFirstAux (m : Reservation) : List Reservation → Reservation
  | [] => m
  | r :: t => if resBefore r m then selectFirstAux r t else selectFirstAux m t

/-- First document in sort order among the matches. -/
def selectFirst : List Reservation → Option Reservation
  | [] => none
  | r :: t => some (selectFirstAux r t)

/-- Filter of the guest lookup (service lines 164-178): the day window
of the date plus, when given, exact phone and exact code.  Status is not
part of the filter. -/
def guestQueryMatches (d : Nat) (phoneN codeN : Option String) (r : Reservation) : Bool :=
  decide (startOfDay d ≤ r.expectedArrivalDate)
    && decide (r.expectedArrivalDate ≤ endOfDay d)
    && (match phoneN with | some p => decide (r.guestPhone = p) | none => true)
    && (match codeN with | some c => decide (r.reservationCode = c) | none => true)

/-- Guest lookup (service lines 155-193): require a date and one of
phone or code, find the single best match, then reject a terminal match
as not found. -/
def findActiveReservationByGuest (store : Store) (date : Option Nat)
    (phone code : Option String) : Except SvcError Reservation :=
  match date with
  | none => .error (.badRequest "Date is required")
  | some d =>
    let phoneN := strVal phone
    let codeN := strVal code
    if phoneN = none ∧ codeN = none then
      .error (.badRequest "Please provide at least one of \"phone number\" or \"reservation code\"")
    else
      match selectFirst (List.filter (guestQueryMatches d phoneN codeN) store) with
      | none => .error (.notFound "Reservation not found")
      | some r =>
        if r.status = .completed ∨ r.status = .cancelled then
          .error (.notFound "No active reservation found")
        else .ok r

/-- Case-insensitive substring test over ASCII, modelling the regex
built from searchText with the i flag when the text has no
metacharacters (the only way the facade uses it). -/
def leadMatches : List Char → List Char → Bool
  | [], _ => true
  | _ :: _, [] => false
  | a :: as, b :: bs => a = b && leadMatches as bs

/-- The pattern occurs somewhere inside the text. -/
def occursIn (pat : List Char) : List Char → Bool
  | [] => List.isEmpty pat
  | hay@(_ :: t) => leadMatches pat hay || occursIn pat t

/-- containsCI hay pat: pat occurs in hay ignoring ASCII case. -/
def containsCI (hay pat : String) : Bool :=
  occursIn (List.map Char.toLower pat.toList) (List.map Char.toLower hay.toList)

/-- Variables object of the graphql facade (service lines 265-316). -/
structure GqlVars where
  date : Option Nat := none
  status : Option String := none
  searchText : Option String := none
  page : Option Nat := none
  limit : Option Nat := none
  sortBy : Option String := none
  sortOrder : Option String := none
deriving DecidableEq

/-- Filter object built by the facade: optional day window on the
arrival date, optional $in over the comma-split status list, optional
case-insensitive search over phone and code. -/
def gqlMatches (vars : GqlVars) (r : Reservation) : Bool :=
  (match vars.date with
   | some d => decide (startOfDay d ≤ r.expectedArrivalDate)
       && decide (r.expectedArrivalDate ≤ endOfDay d)
   | none => true)
  && (match strVal vars.status with
      | some s => List.contains (s.splitOn ",") (statusString r.status)
      | none => true)
  && (match strVal vars.searchText with
      | some t => containsCI r.guestPhone t || containsCI r.reservationCode t
      | none => true)

/-- Rank of a status under the BSON string comparison the database sort
applies to the stored status strings: alphabetically,
approved < cancelled < completed < requested. -/
def statusSortKey : ReservationStatus → Nat
  | .approved => 0
  | .cancelled => 1
  | .completed => 2
  | .requested => 3

/-- Lexicographic strict order on character lists, the order the
database applies to the stored status strings. -/
def charListLt : List Char → List Char → Bool
  | [], [] => false
  | [], _ :: _ => true
  | _ :: _, [] => false
  | a :: as, b :: bs => decide (a < b) || (decide (a = b) && charListLt as bs)

/-- Comparison the facade hands to the database sort (lines 300-316):
for sortBy status, the status string in the requested direction with a
fixed secondary arrival date ascending; for sortBy expectedArrivalDate,
the date in the requested direction; for any other sortBy value, the
fallback arrival date ascending. -/
def gqlLe (sortBy : String) (asc : Bool) (a b : Reservation) : Bool :=
  if sortBy = "status" then
    if statusSortKey a.status = statusSortKey b.status then
      decide (a.expectedArrivalDate ≤ b.expectedArrivalDate)
    else if asc then decide (statusSortKey a.status < statusSortKey b.status)
    else decide (statusSortKey b.status < statusSortKey a.status)
  else if sortBy = "expectedArrivalDate" then
    if asc then decide (a.expectedArrivalDate ≤ b.expectedArrivalDate)
    else decide (b.expectedArrivalDate ≤ a.expectedArrivalDate)
  else decide (a.expectedArrivalDate ≤ b.expectedArrivalDate)

/-- gqlLe as a decidable relation for the sorting algorithm. -/
def gqlR (sortBy : String) (asc : Bool) (a b : Reservation) : Prop :=
  gqlLe sortBy asc a b = true

instance (sortBy : String) (asc : Bool) : DecidableRel (gqlR sortBy asc) :=
  fun a b => inferInstanceAs (Decidable (_ = true))

/-- JavaScript number results relevant to Math.ceil(total / limit). -/
inductive JsNum where
  | nan
  | posInf
  | num (n : Nat)
deriving DecidableEq

/-- Math.ceil(total / limit) over JavaScript division: a positive total
over limit 0 gives Infinity, 0 over 0 gives NaN, otherwise the ceiling
of the exact quotient. -/
def jsCeilPages (total limit : Nat) : JsNum :=
  if limit = 0 then (if total = 0 then .nan else .posInf)
  else .num ((total + limit - 1) / limit)

/-- Metadata block of the facade response. -/
structure GqlMetadata where
  total : Nat
  page : Nat
  limit : Nat
  totalPages : JsNum
deriving DecidableEq

/-- Response of the facade.  Field projection from the query string is
not modelled: it selects which attributes are serialised and does not
affect which records are returned nor their order. -/
structure GqlResult where
  data : List Reservation
  metadata : GqlMetadata
deriving DecidableEq

/-- The graphql facade (service lines 260-372): filter, count, sort with
the insertion sort standing for the database sort, skip and limit with
limit 0 meaning unrestricted, and the metadata block. -/
def graphql (store : Store) (vars : GqlVars) : GqlResult :=
  let matched := List.filter (gqlMatches vars) store
  let page := (natVal vars.page).getD 1
  let limit := (natVal vars.limit).getD 0
  let skip := (page - 1) * limit
  let sortBy := (strVal vars.sortBy).getD "status"
  let asc : Bool := if vars.sortOrder = some "desc" then false else true
  let sorted := List.insertionSort (gqlR sortBy asc) matched
  let data := if limit = 0 then List.drop skip sorted else List.take limit (List.drop skip sorted)
  { data := data
    metadata :=
      { total := matched.length
        page := page
        limit := limit
        totalPages := jsCeilPages matched.length limit } }

/-! Concrete data used by counterexamples and witnesses. -/

/-- A fixed calendar day, in milliseconds. -/
def day200 : Nat := 200 * msPerDay

/-- A stored reservation in the requested status. -/
def resReq : Reservation :=
  { id := 1
    guestName := "Test Guest"
    guestPhone := "13800000000"
    expectedArrivalDate := day200 + 1000
    tableSize := 4
    reservationCode := "ABC123"
    createdAt := some 10
    updatedAt := some 10 }

/-- The same guest and day, already completed. -/
def resDone : Reservation :=
  { resReq with id := 2, status := .completed, reservationCode := "DEF456" }

/-- A later active reservation on the same day and phone. -/
def resLate : Reservation :=
  { resReq with id := 3, expectedArrivalDate := day200 + 2000, reservationCode := "GHI789" }

/-- Create body used by the code generation counterexample. -/
def shortCodeDto : CreateDto :=
  { guestName := "A"
    guestPhone := "13800000000"
    expectedArrivalDate := msPerDay
    tableSize := 4 }

/-! Helper lemmas about the embedded operations. -/

/-- The rank order agrees with the lexicographic order of the stored
status strings. -/
theorem statusSortKey_orders (a b : ReservationStatus) :
    statusSortKey a < statusSortKey b
      ↔ charListLt (statusString a).toList (statusString b).toList = true := by
  cases a <;> cases b <;> decide

theorem gqlLe_total (sortBy : String) (asc : Bool) (a b : Reservation) :
    gqlLe sortBy asc a b = true ∨ gqlLe sortBy asc b a = true := by
  unfold gqlLe
  split_ifs <;> simp_all <;> omega

theorem gqlLe_trans (sortBy : String) (asc : Bool) (a b c : Reservation)
    (hab : gqlLe sortBy asc a b = true) (hbc : gqlLe sortBy asc b c = true) :
    gqlLe sortBy asc a c = true := by
  unfold gqlLe at *
  split_ifs at * <;> simp_all <;> omega

theorem resBefore_irrefl (a : Reservation) : resBefore a a = false := by
  simp [resBefore]

theorem resBefore_trans {a b c : Reservation}
    (hab : resBefore a b = true) (hbc : resBefore b c = true) :
    resBefore a c = true := by
  simp only [resBefore, Bool.or_eq_true, Bool.and_eq_true, decide_eq_true_eq] at *
  omega

theorem resBefore_negtrans {a b c : Reservation}
    (hab : resBefore a b = false) (hbc : resBefore b c = false) :
    resBefore a c = false := by
  simp only [resBefore, Bool.or_eq_false_iff, Bool.and_eq_false_iff,
    decide_eq_false_iff_not, decide_eq_true_eq] at *
  omega

theorem selectFirstAux_mem (t : List Reservation) :
    ∀ m, selectFirstAux m t = m ∨ selectFirstAux m t ∈ t := by
  induction t with
  | nil => intro m; exact Or.inl rfl
  | cons r t ih =>
    intro m
    unfold selectFirstAux
    by_cases hb : resBefore r m = true
    · rw [hb]
      simp only [if_true]
      rcases ih r with h1 | h1
      · exact Or.inr (by rw [h1]; exact List.mem_cons_self r t)
      · exact Or.inr (List.mem_cons_of_mem r h1)
    · have hb' : resBefore r m = false := by simpa using hb
      rw [hb']
      simp only [Bool.false_eq_true, if_false]
      rcases ih m with h1 | h1
      · exact Or.inl h1
      · exact Or.inr (List.mem_cons_of_mem r h1)

theorem selectFirstAux_min (t : List Reservation) :
    ∀ m, resBefore m (selectFirstAux m t) = false
      ∧ ∀ x ∈ t, resBefore x (selectFirstAux m t) = false := by
  induction t with
  | nil => intro m; exact ⟨resBefore_irrefl m, by simp⟩
  | cons r t ih =>
    intro m
    unfold selectFirstAux
    by_cases hb : resBefore r m = true
    · rw [hb]
      simp only [if_true]
      obtain ⟨h1, h2⟩ := ih r
      refine ⟨?_, ?_⟩
      · by_cases hm : resBefore m (selectFirstAux r t) = true
        · exact absurd (resBefore_trans hb hm) (by rw [h1]; simp)
        · simpa using hm
      · intro x hx
        rcases List.mem_cons.mp hx with h3 | h3
        · subst h3; exact h1
        · exact h2 x h3
    · have hb' : resBefore r m = false := by simpa using hb
      rw [hb']
      simp only [Bool.false_eq_true, if_false]
      obtain ⟨h1, h2⟩ := ih m
      refine ⟨h1, ?_⟩
      intro x hx
      rcases List.mem_cons.mp hx with h3 | h3
      · subst h3; exact resBefore_negtrans hb' h1
      · exact h2 x h3

theorem selectFirst_spec {l : List Reservation} {r : Reservation}
    (h : selectFirst l = some r) :
    r ∈ l ∧ ∀ x ∈ l, resBefore x r = false := by
  match l with
  | [] => cases h
  | a :: t =>
    simp only [selectFirst, Option.some.injEq] at h
    subst h
    constructor
    · rcases selectFirstAux_mem t a with h1 | h1
      · rw [h1]; exact List.mem_cons_self a t
      · exact List.mem_cons_of_mem a h1
    · intro x hx
      obtain ⟨h1, h2⟩ := selectFirstAux_min t a
      rcases List.mem_cons.mp hx with h3 | h3
      · subst h3; exact h1
      · exact h2 x h3

theorem conflictExists_iff (store : Store) (phone : String) (t : Nat) :
    conflictExists store phone t = true
      ↔ ∃ x ∈ store, x.guestPhone = phone
          ∧ startOfDay t ≤ x.expectedArrivalDate
          ∧ x.expectedArrivalDate ≤ endOfDay t
          ∧ (x.status = .requested ∨ x.status = .approved) := by
  simp only [conflictExists, List.any_eq_true, Bool.and_eq_true, decide_eq_true_eq,
    isActive, Bool.or_eq_true]
  constructor
  · rintro ⟨x, hx, ⟨⟨⟨h1, h2⟩, h3⟩, h4⟩⟩
    exact ⟨x, hx, h1, h2, h3, h4⟩
  · rintro ⟨x, hx, h1, h2, h3, h4⟩
    exact ⟨x, hx, ⟨⟨⟨h1, h2⟩, h3⟩, h4⟩⟩

theorem createLoop_no_conflict (store : Store) (now newId : Nat)
    (dto : CreateDto) (rands : List (List Nat)) (m : String) :
    (createLoop store now newId dto rands).1 ≠ .error (.conflict m) := by
  induction rands with
  | nil => simp [createLoop]
  | cons digits rest ih =>
    unfold createLoop
    by_cases hc : List.any store (fun r => r.reservationCode = genCode digits) = true
    · simpa [hc] using ih
    · simp only [Bool.not_eq_true] at hc
      simp [hc]

/-- Claim C1, counterexample: the claim says that from status requested
only a target of approved or cancelled succeeds, but the staff status
update of a requested reservation straight to completed succeeds. -/
theorem requested_to_completed_succeeds :
    ∃ r', (updateStatus [resReq] 99 1 { status := .completed } 7).1 = .ok r'
      ∧ r'.status = .completed := ⟨_, rfl, rfl⟩

/-- Claim C1, amended: for a staff status update of an existing
reservation, the call succeeds exactly when the target status differs
from the current one and the current status is neither cancelled nor
completed — so from requested the targets approved, cancelled and
completed all succeed, and from approved the targets requested,
cancelled and completed all succeed; every other combination fails with
a validation error. -/
theorem updateStatus_transition_characterization
    (store : Store) (now id eid : Nat) (dto : StatusDto) (r : Reservation)
    (hr : findById store id = some r) :
    ((∃ res, (updateStatus store now id dto eid).1 = .ok res)
        ↔ (dto.status ≠ r.status ∧ r.status ≠ .cancelled ∧ r.status ≠ .completed))
    ∧ ((dto.status = r.status ∨ r.status = .cancelled ∨ r.status = .completed) →
        ∃ msg, (updateStatus store now id dto eid).1 = .error (.badRequest msg)) := by
  simp only [updateStatus, hr]
  split_ifs with h1 h2 h3
  · refine ⟨?_, ?_⟩
    · simp [h1]
    · intro _; exact ⟨_, rfl⟩
  · refine ⟨?_, ?_⟩
    · simp [h2]
    · intro _; exact ⟨_, rfl⟩
  · refine ⟨?_, ?_⟩
    · simp [h3]
    · intro _; exact ⟨_, rfl⟩
  · refine ⟨?_, ?_⟩
    · constructor
      · intro _
        exact ⟨fun h => h1 h.symm, h2, h3⟩
      · intro _
        exact ⟨_, rfl⟩
    · intro hcase
      rcases hcase with h | h | h
      · exact absurd h.symm h1
      · exact absurd h h2
      · exact absurd h h3

/-- Claim C1 witness: the characterization applied to a stored approved
reservation moving to requested. -/
theorem updateStatus_transition_characterization_witness :
    ((∃ res, (updateStatus [{ resReq with status := .approved }] 3 1
        { status := .requested } 7).1 = .ok res)
      ↔ (ReservationStatus.requested ≠ ReservationStatus.approved
          ∧ ReservationStatus.approved ≠ ReservationStatus.cancelled
          ∧ ReservationStatus.approved ≠ ReservationStatus.completed))
    ∧ ((ReservationStatus.requested = ReservationStatus.approved
          ∨ ReservationStatus.approved = ReservationStatus.cancelled
          ∨ ReservationStatus.approved = ReservationStatus.completed) →
        ∃ msg, (updateStatus [{ resReq with status := .approved }] 3 1
            { status := .requested } 7).1 = .error (.badRequest msg)) :=
  updateStatus_transition_characterization [{ resReq with status := .approved }] 3 1 7
    { status := .requested } { resReq with status := .approved } rfl

/-- Claim C2: on a successful staff transition or guest cancel, the
stored record keeps its timestamp fields unset — the update document
contains only status and remarks and findByIdAndUpdate never runs the
pre-save middleware, while that middleware, had it run on the same
transition, would have stamped the time. -/
theorem status_transition_leaves_timestamps_unset :
    (∃ r', (cancelByGuest [resReq] 55 1 { status := .requested } 7).1 = .ok r'
        ∧ r'.status = .cancelled ∧ r'.cancelledAt = none)
    ∧ (∃ r', (updateStatus [resReq] 55 1 { status := .completed } 7).1 = .ok r'
        ∧ r'.status = .completed ∧ r'.completedAt = none)
    ∧ (preSaveHook { resReq with status := .cancelled } true 55).cancelledAt = some 55
    ∧ (preSaveHook { resReq with status := .completed } true 55).completedAt = some 55 :=
  ⟨⟨_, rfl, rfl, rfl⟩, ⟨_, rfl, rfl, rfl⟩, rfl, rfl⟩

/-- Claim C4: a guest update of an existing reservation whose status is
not requested fails with the fixed validation error and leaves the
store untouched, whatever the payload. -/
theorem update_rejected_unless_requested
    (store : Store) (now id : Nat) (dto : UpdateDto) (r : Reservation)
    (hr : findById store id = some r) (hst : r.status ≠ .requested) :
    (update store now id dto).1
        = .error (.badRequest "Reservation is not in pending status, cannot be updated")
    ∧ (update store now id dto).2 = store := by
  simp only [update, hr]
  rw [if_pos hst]
  exact ⟨rfl, rfl⟩

/-- Claim C4 witness: updating a completed reservation with a payload
that changes the table size. -/
theorem update_rejected_unless_requested_witness :
    (update [resDone] 3 2 { tableSize := some 9 }).1
        = .error (.badRequest "Reservation is not in pending status, cannot be updated")
    ∧ (update [resDone] 3 2 { tableSize := some 9 }).2 = [resDone] :=
  update_rejected_unless_requested _ 3 2 _ _ rfl (by decide)

/-- Claim C5: when Math.random() draws exactly one half, its base-36
rendering is 0.i, so substring(2, 8) keeps a single character and the
persisted reservation code is the one-character string I, not a
6-character code. -/
theorem reservation_code_short_at_half :
    randBase36String [18] = "0.i"
    ∧ genCode [18] = "I"
    ∧ (∃ r', (create [] 0 1 [[18]] shortCodeDto).1 = .ok r'
        ∧ r'.reservationCode = "I" ∧ r'.reservationCode.length ≠ 6) := by
  refine ⟨by decide, by decide, _, rfl, by decide, by decide⟩

/-- Claim C6, counterexample: a terminal match and a missing match both
surface as not-found errors, but with different messages, and the
message is part of the guest-visible response — the two outcomes are
not identical. -/
theorem terminal_vs_missing_messages_differ :
    findActiveReservationByGuest [resDone] (some (day200 + 5)) (some "13800000000") none
        = .error (.notFound "No active reservation found")
    ∧ findActiveReservationByGuest [] (some (day200 + 5)) (some "13800000000") none
        = .error (.notFound "Reservation not found")
    ∧ "No active reservation found" ≠ "Reservation not found" := by
  refine ⟨rfl, rfl, by decide⟩

/-- Claim C6, amended: a matching record in a terminal status is
rejected with a not-found-kind error just like a missing match, but the
two cases carry different messages (No active reservation found versus
Reservation not found), so the guest-visible outcome distinguishes them
by message text even though both are of the not-found kind. -/
theorem find_active_not_found_kinds
    (store : Store) (d : Nat) (phone code : Option String)
    (hgiven : ¬ (strVal phone = none ∧ strVal code = none)) :
    (List.filter (guestQueryMatches d (strVal phone) (strVal code)) store = [] →
      findActiveReservationByGuest store (some d) phone code
        = .error (.notFound "Reservation not found"))
    ∧ (∀ r, selectFirst (List.filter (guestQueryMatches d (strVal phone) (strVal code)) store)
          = some r →
        (r.status = .completed ∨ r.status = .cancelled) →
        findActiveReservationByGuest store (some d) phone code
          = .error (.notFound "No active reservation found")) := by
  constructor
  · intro hempty
    simp only [findActiveReservationByGuest, if_neg hgiven, hempty, selectFirst]
  · intro r hsel hterm
    simp only [findActiveReservationByGuest, if_neg hgiven, hsel]
    rw [if_pos hterm]

/-- Claim C6 witness: the two branches at a completed record for the
guest and day of the counterexample, and at the empty store. -/
theorem find_active_not_found_kinds_witness :
    (List.filter (guestQueryMatches (day200 + 5) (strVal (some "13800000000")) (strVal none)) []
        = [] →
      findActiveReservationByGuest [] (some (day200 + 5)) (some "13800000000") none
        = .error (.notFound "Reservation not found"))
    ∧ (∀ r, selectFirst (List.filter
          (guestQueryMatches (day200 + 5) (strVal (some "13800000000")) (strVal none)) [])
          = some r →
        (r.status = .completed ∨ r.status = .cancelled) →
        findActiveReservationByGuest [] (some (day200 + 5)) (some "13800000000") none
          = .error (.notFound "No active reservation found")) :=
  find_active_not_found_kinds [] (day200 + 5) (some "13800000000") none (by decide)

/-- Claim C10: the guest lookup filter constrains only the day window
and the phone or code, never the status; the record served is the first
match under arrival date ascending then creation time descending, and
when that record is terminal the call reports not found even while
another matching record is active. -/
theorem find_active_selection_ignores_status
    (store : Store) (d : Nat) (phone code : Option String) (r : Reservation)
    (hgiven : ¬ (strVal phone = none ∧ strVal code = none))
    (hsel : selectFirst (List.filter (guestQueryMatches d (strVal phone) (strVal code)) store)
        = some r)
    (hterm : r.status = .completed ∨ r.status = .cancelled)
    (hactive : ∃ x ∈ List.filter (guestQueryMatches d (strVal phone) (strVal code)) store,
        isActive x.status = true) :
    findActiveReservationByGuest store (some d) phone code
        = .error (.notFound "No active reservation found")
    ∧ r ∈ store
    ∧ guestQueryMatches d (strVal phone) (strVal code) r = true
    ∧ (∀ x ∈ List.filter (guestQueryMatches d (strVal phone) (strVal code)) store,
        resBefore x r = false) := by
  have hspec := selectFirst_spec hsel
  have hm := hspec.1
  rw [List.mem_filter] at hm
  refine ⟨?_, hm.1, hm.2, hspec.2⟩
  simp only [findActiveReservationByGuest, if_neg hgiven, hsel]
  rw [if_pos hterm]

/-- Claim C10 witness: the completed record arrives earlier in the day
than the active one, gets selected, and the lookup answers not found
although the active record matches the same criteria. -/
theorem find_active_selection_ignores_status_witness :
    findActiveReservationByGuest [resDone, resLate] (some (day200 + 5)) (some "13800000000") none
        = .error (.notFound "No active reservation found")
    ∧ resDone ∈ [resDone, resLate]
    ∧ guestQueryMatches (day200 + 5) (strVal (some "13800000000")) (strVal none) resDone = true
    ∧ (∀ x ∈ List.filter
          (guestQueryMatches (day200 + 5) (strVal (some "13800000000")) (strVal none))
          [resDone, resLate],
        resBefore x resDone = false) :=
  find_active_selection_ignores_status [resDone, resLate] (day200 + 5)
    (some "13800000000") none resDone (by decide) (by decide) (by decide) (by decide)

/-- Claim C3: checkConfilct signals a Conflict exactly when a stored
reservation with the given phone, an arrival date inside the day window
of the given date and an active status exists; create consults it on
every call that passes the phone and future-date validations; and the
guest update consults it exactly when the supplied (valid) new arrival
date falls on a different calendar day than the stored one. -/
theorem checkConfilct_window_and_invocation
    (store : Store) (phone : String) (t : Nat)
    (now newId : Nat) (rands : List (List Nat)) (cdto : CreateDto)
    (id : Nat) (udto : UpdateDto) (r : Reservation)
    (hr : findById store id = some r) (hreq : r.status = .requested) :
    (checkConfilct store phone t = some (.conflict conflictMsg)
      ↔ ∃ x ∈ store, x.guestPhone = phone
          ∧ startOfDay t ≤ x.expectedArrivalDate
          ∧ x.expectedArrivalDate ≤ endOfDay t
          ∧ (x.status = .requested ∨ x.status = .approved))
    ∧ (validPhone cdto.guestPhone = true → now < cdto.expectedArrivalDate →
        ((create store now newId rands cdto).1 = .error (.conflict conflictMsg)
          ↔ conflictExists store cdto.guestPhone cdto.expectedArrivalDate = true))
    ∧ (∀ d, udto.expectedArrivalDate = some d → now < d →
        (sameDay r.expectedArrivalDate d = false →
          ((update store now id udto).1 = .error (.conflict conflictMsg)
            ↔ conflictExists store r.guestPhone d = true))
        ∧ (sameDay r.expectedArrivalDate d = true →
            ∀ m, (update store now id udto).1 ≠ .error (.conflict m)))
    ∧ (udto.expectedArrivalDate = none →
        ∀ m, (update store now id udto).1 ≠ .error (.conflict m)) := by
  have hnotne : ¬ r.status ≠ ReservationStatus.requested := fun h => h hreq
  refine ⟨?_, ?_, ?_, ?_⟩
  · unfold checkConfilct
    by_cases hc : conflictExists store phone t = true
    · rw [if_pos hc]
      constructor
      · intro _
        exact (conflictExists_iff store phone t).mp hc
      · intro _
        rfl
    · rw [if_neg hc]
      constructor
      · intro h
        cases h
      · intro hex
        exact absurd ((conflictExists_iff store phone t).mpr hex) hc
  · intro hvp hnow
    unfold create
    rw [if_neg (by simp [hvp]), if_neg (by omega)]
    unfold checkConfilct
    by_cases hc : conflictExists store cdto.guestPhone cdto.expectedArrivalDate = true
    · rw [if_pos hc]
      simp [hc]
    · rw [if_neg hc]
      constructor
      · intro h
        exact absurd h (createLoop_no_conflict store now newId cdto rands conflictMsg)
      · intro h
        exact absurd h hc
  · intro d hd hnow
    simp only [update, hr, if_neg hnotne, hd]
    rw [if_neg (by omega)]
    constructor
    · intro hdiff
      rw [if_pos hdiff]
      unfold checkConfilct
      by_cases hc : conflictExists store r.guestPhone d = true
      · rw [if_pos hc]
        simp [hc]
      · rw [if_neg hc]
        constructor
        · intro h
          cases h
        · intro h
          exact absurd h hc
    · intro hsame m
      rw [if_neg (by simp [hsame])]
      intro h
      cases h
  · intro hnone m
    simp only [update, hr, if_neg hnotne, hnone]
    intro h
    cases h

/-- Claim C3 witness: the conflict characterization instantiated at the
one-record store of the requested reservation, with a same-phone create
for its day and an update moving it by one day. -/
theorem checkConfilct_window_and_invocation_witness :
    (checkConfilct [resReq] "13800000000" (day200 + 7) = some (.conflict conflictMsg)
      ↔ ∃ x ∈ [resReq], x.guestPhone = "13800000000"
          ∧ startOfDay (day200 + 7) ≤ x.expectedArrivalDate
          ∧ x.expectedArrivalDate ≤ endOfDay (day200 + 7)
          ∧ (x.status = .requested ∨ x.status = .approved))
    ∧ (validPhone shortCodeDto.guestPhone = true → 0 < shortCodeDto.expectedArrivalDate →
        ((create [resReq] 0 9 [[1, 2, 3, 4, 5, 6, 7, 8]] shortCodeDto).1
            = .error (.conflict conflictMsg)
          ↔ conflictExists [resReq] shortCodeDto.guestPhone shortCodeDto.expectedArrivalDate
              = true))
    ∧ (∀ d, ({ expectedArrivalDate := some (day200 + msPerDay) } : UpdateDto).expectedArrivalDate
          = some d → 0 < d →
        (sameDay resReq.expectedArrivalDate d = false →
          ((update [resReq] 0 1 { expectedArrivalDate := some (day200 + msPerDay) }).1
              = .error (.conflict conflictMsg)
            ↔ conflictExists [resReq] resReq.guestPhone d = true))
        ∧ (sameDay resReq.expectedArrivalDate d = true →
            ∀ m, (update [resReq] 0 1 { expectedArrivalDate := some (day200 + msPerDay) }).1
              ≠ .error (.conflict m)))
    ∧ (({ expectedArrivalDate := some (day200 + msPerDay) } : UpdateDto).expectedArrivalDate
          = none →
        ∀ m, (update [resReq] 0 1 { expectedArrivalDate := some (day200 + msPerDay) }).1
          ≠ .error (.conflict m)) :=
  checkConfilct_window_and_invocation [resReq] "13800000000" (day200 + 7) 0 9
    [[1, 2, 3, 4, 5, 6, 7, 8]] shortCodeDto 1 { expectedArrivalDate := some (day200 + msPerDay) }
    resReq rfl rfl

/-- Claim C8: a guest update of a requested reservation whose payload
passes the date validations writes every present payload field verbatim
into the stored record, including an arbitrary status value, with no
status-transition validation — the update can move a requested
reservation directly to any status. -/
theorem guest_update_writes_payload_verbatim
    (store : Store) (now id : Nat) (dto : UpdateDto) (r : Reservation)
    (hr : findById store id = some r) (hreq : r.status = .requested)
    (hdate : ∀ d, dto.expectedArrivalDate = some d →
        now < d ∧ (sameDay r.expectedArrivalDate d = false →
          conflictExists store r.guestPhone d = false)) :
    (update store now id dto).1 = .ok (applyUpdateDto r dto now)
    ∧ (update store now id dto).2 = replaceById store id (applyUpdateDto r dto now)
    ∧ (∀ s, dto.status = some s → (applyUpdateDto r dto now).status = s)
    ∧ (∀ v, dto.guestName = some v → (applyUpdateDto r dto now).guestName = v)
    ∧ (∀ v, dto.guestPhone = some v → (applyUpdateDto r dto now).guestPhone = v)
    ∧ (∀ v, dto.guestEmail = some v → (applyUpdateDto r dto now).guestEmail = v)
    ∧ (∀ v, dto.expectedArrivalDate = some v →
        (applyUpdateDto r dto now).expectedArrivalDate = v)
    ∧ (∀ v, dto.expectedArrivalTime = some v →
        (applyUpdateDto r dto now).expectedArrivalTime = v)
    ∧ (∀ v, dto.tableSize = some v → (applyUpdateDto r dto now).tableSize = v)
    ∧ (∀ v, dto.specialRequests = some v → (applyUpdateDto r dto now).specialRequests = v) := by
  have hnotne : ¬ r.status ≠ ReservationStatus.requested := fun h => h hreq
  have hmain : (update store now id dto).1 = .ok (applyUpdateDto r dto now)
      ∧ (update store now id dto).2 = replaceById store id (applyUpdateDto r dto now) := by
    rcases hdn : dto.expectedArrivalDate with _ | d
    · simp only [update, hr, if_neg hnotne, hdn]
      exact ⟨trivial, trivial⟩
    · obtain ⟨h1, h2⟩ := hdate d hdn
      simp only [update, hr, if_neg hnotne, hdn]
      rw [if_neg (show ¬ d ≤ now by omega)]
      by_cases hsd : sameDay r.expectedArrivalDate d = false
      · rw [if_pos hsd]
        unfold checkConfilct
        rw [if_neg (by simp [h2 hsd])]
        exact ⟨rfl, rfl⟩
      · rw [if_neg hsd]
        exact ⟨rfl, rfl⟩
  refine ⟨hmain.1, hmain.2, ?_, ?_, ?_, ?_, ?_, ?_, ?_, ?_⟩ <;>
    intro v hv <;> simp [applyUpdateDto, hv]

/-- Claim C8 witness: a payload carrying only a status of completed and
a table size moves the stored requested reservation straight to
completed. -/
theorem guest_update_writes_payload_verbatim_witness :
    (update [resReq] 3 1 { status := some .completed, tableSize := some 2 }).1
        = .ok (applyUpdateDto resReq { status := some .completed, tableSize := some 2 } 3)
    ∧ (update [resReq] 3 1 { status := some .completed, tableSize := some 2 }).2
        = replaceById [resReq] 1
            (applyUpdateDto resReq { status := some .completed, tableSize := some 2 } 3)
    ∧ (∀ s, ({ status := some .completed, tableSize := some 2 } : UpdateDto).status = some s →
        (applyUpdateDto resReq { status := some .completed, tableSize := some 2 } 3).status = s)
    ∧ (∀ v, ({ status := some .completed, tableSize := some 2 } : UpdateDto).guestName = some v →
        (applyUpdateDto resReq { status := some .completed, tableSize := some 2 } 3).guestName
          = v)
    ∧ (∀ v, ({ status := some .completed, tableSize := some 2 } : UpdateDto).guestPhone = some v →
        (applyUpdateDto resReq { status := some .completed, tableSize := some 2 } 3).guestPhone
          = v)
    ∧ (∀ v, ({ status := some .completed, tableSize := some 2 } : UpdateDto).guestEmail = some v →
        (applyUpdateDto resReq { status := some .completed, tableSize := some 2 } 3).guestEmail
          = v)
    ∧ (∀ v, ({ status := some .completed, tableSize := some 2 } : UpdateDto).expectedArrivalDate
          = some v →
        (applyUpdateDto resReq { status := some .completed, tableSize := some 2 }
            3).expectedArrivalDate = v)
    ∧ (∀ v, ({ status := some .completed, tableSize := some 2 } : UpdateDto).expectedArrivalTime
          = some v →
        (applyUpdateDto resReq { status := some .completed, tableSize := some 2 }
            3).expectedArrivalTime = v)
    ∧ (∀ v, ({ status := some .completed, tableSize := some 2 } : UpdateDto).tableSize = some v →
        (applyUpdateDto resReq { status := some .completed, tableSize := some 2 } 3).tableSize
          = v)
    ∧ (∀ v, ({ status := some .completed, tableSize := some 2 } : UpdateDto).specialRequests
          = some v →
        (applyUpdateDto resReq { status := some .completed, tableSize := some 2 }
            3).specialRequests = v) :=
  guest_update_writes_payload_verbatim [resReq] 3 1
    { status := some .completed, tableSize := some 2 } resReq rfl rfl
    (fun d h => nomatch h)

theorem gqlLe_status_asc_iff (a b : Reservation) :
    gqlLe "status" true a b = true
      ↔ (statusSortKey a.status < statusSortKey b.status
          ∨ (statusSortKey a.status = statusSortKey b.status
              ∧ a.expectedArrivalDate ≤ b.expectedArrivalDate)) := by
  unfold gqlLe
  rw [if_pos rfl]
  by_cases h : statusSortKey a.status = statusSortKey b.status
  · rw [if_pos h]
    simp [h]
  · rw [if_neg h, if_pos rfl]
    simp [h]

/-- Claim C7: with a comma-separated status-list variable, the facade
returns only records whose status string is in the list, and with no
sort variables the result is ordered by status ascending (under the
string order of the stored status values) with arrival date ascending
as the secondary key. -/
theorem graphql_status_filter_default_sort
    (store : Store) (vars : GqlVars) (s : String)
    (hs : strVal vars.status = some s)
    (hsb : vars.sortBy = none) (hso : vars.sortOrder = none) :
    (∀ r ∈ (graphql store vars).data, statusString r.status ∈ s.splitOn ",")
    ∧ List.Pairwise (fun a b =>
        statusSortKey a.status < statusSortKey b.status
          ∨ (statusSortKey a.status = statusSortKey b.status
              ∧ a.expectedArrivalDate ≤ b.expectedArrivalDate)) (graphql store vars).data := by
  have hsub : List.Sublist (graphql store vars).data
      (List.insertionSort (gqlR "status" true) (List.filter (gqlMatches vars) store)) := by
    simp only [graphql, hsb, hso, strVal, Option.getD_none]
    rw [if_neg (show ¬ (none : Option String) = some "desc" by simp)]
    split_ifs
    · exact List.drop_sublist _ _
    · exact (List.take_sublist _ _).trans (List.drop_sublist _ _)
  constructor
  · intro r hrm
    have h1 : r ∈ List.insertionSort (gqlR "status" true)
        (List.filter (gqlMatches vars) store) := hsub.subset hrm
    rw [List.mem_insertionSort, List.mem_filter] at h1
    have h2 := h1.2
    simp only [gqlMatches, hs, Bool.and_eq_true] at h2
    have hcontains := h2.1.2
    simpa [List.contains, List.elem_iff] using hcontains
  · haveI : IsTrans Reservation (gqlR "status" true) :=
      ⟨fun a b c hab hbc => gqlLe_trans "status" true a b c hab hbc⟩
    haveI : IsTotal Reservation (gqlR "status" true) :=
      ⟨fun a b => gqlLe_total "status" true a b⟩
    have hsorted := List.sorted_insertionSort (gqlR "status" true)
      (List.filter (gqlMatches vars) store)
    exact (hsorted.sublist hsub).imp fun hab => (gqlLe_status_asc_iff _ _).mp hab

/-- Claim C7 witness: a store holding a requested and an approved
reservation queried with the status list requested,approved. -/
theorem graphql_status_filter_default_sort_witness :
    (∀ r ∈ (graphql [resReq, { resReq with id := 4, status := .approved }]
        { status := some "requested,approved" }).data,
      statusString r.status ∈ ("requested,approved".splitOn ","))
    ∧ List.Pairwise (fun a b =>
        statusSortKey a.status < statusSortKey b.status
          ∨ (statusSortKey a.status = statusSortKey b.status
              ∧ a.expectedArrivalDate ≤ b.expectedArrivalDate))
        (graphql [resReq, { resReq with id := 4, status := .approved }]
          { status := some "requested,approved" }).data :=
  graphql_status_filter_default_sort [resReq, { resReq with id := 4, status := .approved }]
    { status := some "requested,approved" } "requested,approved" rfl rfl rfl

/-- Claim C9: when the limit variable is absent or 0 and at least one
record matches, the metadata reports Infinity for totalPages — never a
finite number — while total, page and limit are reported as the match
count, the given page and the effective limit 0. -/
theorem graphql_limit_zero_totalPages_infinite
    (store : Store) (vars : GqlVars) (p : Nat)
    (hp : vars.page = some p) (hp0 : p ≠ 0)
    (hl : vars.limit = none ∨ vars.limit = some 0)
    (hm : 0 < (List.filter (gqlMatches vars) store).length) :
    (graphql store vars).metadata.totalPages = JsNum.posInf
    ∧ (∀ n, (graphql store vars).metadata.totalPages ≠ JsNum.num n)
    ∧ (graphql store vars).metadata.total = (List.filter (gqlMatches vars) store).length
    ∧ (graphql store vars).metadata.page = p
    ∧ (graphql store vars).metadata.limit = 0 := by
  have hlim : natVal vars.limit = none := by
    rcases hl with h | h <;> simp [h, natVal]
  have hpage : natVal vars.page = some p := by
    rw [hp]
    match p, hp0 with
    | n + 1, _ => rfl
  have htp : jsCeilPages (List.filter (gqlMatches vars) store).length 0 = JsNum.posInf := by
    unfold jsCeilPages
    rw [if_pos rfl, if_neg (by omega)]
  refine ⟨?_, ?_, ?_, ?_, ?_⟩ <;>
    simp [graphql, hlim, hpage, htp]

/-- Claim C9 witness: one matching record, page 1, limit omitted. -/
theorem graphql_limit_zero_totalPages_infinite_witness :
    (graphql [resReq] { page := some 1 }).metadata.totalPages = JsNum.posInf
    ∧ (∀ n, (graphql [resReq] { page := some 1 }).metadata.totalPages ≠ JsNum.num n)
    ∧ (graphql [resReq] { page := some 1 }).metadata.total
        = (List.filter (gqlMatches { page := some 1 }) [resReq]).length
    ∧ (graphql [resReq] { page := some 1 }).metadata.page = 1
    ∧ (graphql [resReq] { page := some 1 }).metadata.limit = 0 :=
  graphql_limit_zero_totalPages_infinite [resReq] { page := some 1 } 1 rfl
    (by decide) (Or.inl rfl) (by decide)

end HiltonOnline
